import Mathlib

/-!
Verification of the snapshot/diff/reconciliation core of
`src/watchdog/observers/fsevents.py`.

`queue_events`, `run` and `on_thread_exit` are embedded from the source.
`DirectorySnapshot` (module `watchdog.utils.dirsnapshot`) and the typed event
classes (module `watchdog.events`) are imported by the source file but their
modules are not part of the source tree; those operations are modelled from
the specification, as stated in their doc comments.
-/

set_option maxHeartbeats 1000000

namespace Watchdog

/-- A filesystem path, as its list of components. Event paths arrive already
normalized (`absolute_path` in the source is an external path utility). -/
abbrev Path := List String

/-- Modelled from the spec: the metadata of an Entry (§3) kept by
`watchdog.utils.dirsnapshot` (module imported by the source but missing from
the tree): kind (file or directory), identity key (inode-equivalent),
last-modified timestamp, and size. -/
structure Stat where
  isDir : Bool
  inode : Nat
  mtime : Nat
  size : Nat
deriving DecidableEq, Repr

/-- Modelled from the spec: a Snapshot (§3) is a point-in-time mapping from
path to entry metadata; `DirectorySnapshot` lives in the missing module
`watchdog.utils.dirsnapshot`. -/
structure Snapshot where
  entries : List (Path × Stat)
deriving DecidableEq, Repr

/-- The live filesystem at the instant of a scan, as the list of its entries;
`DirectorySnapshot.build` scans it. -/
abbrev FS := List (Path × Stat)

/-- Modelled from the spec: `ScanError` (§4.1, §7), raised when the scanned
root is inaccessible or has disappeared. -/
structure ScanError where
  path : Path
deriving DecidableEq, Repr

/-- `pathUnder root p`: `root` is a non-strict ancestor of `p`, i.e. the
components of `root` form an initial segment of those of `p`. -/
def pathUnder : Path → Path → Bool
  | [], _ => true
  | _ :: _, [] => false
  | a :: as, b :: bs => decide (a = b) && pathUnder as bs

/-- Lexicographic comparison of paths, used only by the move-detection
tie-break (§4.2 step 5). -/
def pathLt : Path → Path → Bool
  | [], [] => false
  | [], _ :: _ => true
  | _ :: _, [] => false
  | a :: as, b :: bs => if a = b then pathLt as bs else decide (a < b)

/-- First entry with the given path, if any. -/
def lookupEntries : List (Path × Stat) → Path → Option Stat
  | [], _ => none
  | e :: es, p => if e.1 = p then some e.2 else lookupEntries es p

def Snapshot.lookup (s : Snapshot) (p : Path) : Option Stat :=
  lookupEntries s.entries p

/-- Paths are pairwise distinct. -/
def pathsDistinct : List (Path × Stat) → Bool
  | [] => true
  | e :: es => es.all (fun f => decide (¬ f.1 = e.1)) && pathsDistinct es

/-- The §3 invariant: within one Snapshot, path is unique. -/
abbrev Snapshot.wf (s : Snapshot) : Prop :=
  pathsDistinct s.entries = true

/-- Modelled from the spec: `Snapshot.build(path, recursive)` (§4.1) of the
missing `watchdog.utils.dirsnapshot` module: scans the live filesystem rooted
at `root`; recursive scans take all descendants, non-recursive ones only the
root and its immediate listing; fails with `ScanError` when the root is
inaccessible (here: absent from the live filesystem). -/
def DirectorySnapshot.build (fs : FS) (root : Path) (recursive : Bool) :
    Except ScanError Snapshot :=
  match lookupEntries fs root with
  | none => .error ⟨root⟩
  | some _ => .ok ⟨fs.filter (fun e =>
      if recursive then pathUnder root e.1
      else decide (e.1 = root) || (pathUnder root e.1 && decide (e.1.length = root.length + 1)))⟩

/-- Modelled from the spec: `extract_subset(subroot_path, recursive)` (§4.1)
of the missing `watchdog.utils.dirsnapshot` module, called `copy` by the
source: only entries whose path is the subroot or, if recursive, a strict
descendant of it. -/
def Snapshot.copy (s : Snapshot) (root : Path) (recursive : Bool) : Snapshot :=
  ⟨s.entries.filter (fun e =>
      decide (e.1 = root) || (recursive && pathUnder root e.1 && decide (root.length < e.1.length)))⟩

/-- Modelled from the spec: `merge_multiple(paths, recursive)` (§4.1) of the
missing `watchdog.utils.dirsnapshot` module, called `copy_multiple` by the
source: the union of the subset extractions at the given subroots. -/
def Snapshot.copy_multiple (s : Snapshot) (roots : List Path) (recursive : Bool) : Snapshot :=
  ⟨s.entries.filter (fun e => roots.any (fun r =>
      decide (e.1 = r) || (recursive && pathUnder r e.1 && decide (r.length < e.1.length))))⟩

/-- Modelled from the spec: `union(other)` (§4.1) of the missing
`watchdog.utils.dirsnapshot` module, called `add_entries` by the source: the
other snapshot's entries are added, overriding any same-path entry. -/
def Snapshot.add_entries (s o : Snapshot) : Snapshot :=
  ⟨o.entries ++ s.entries.filter (fun e => (lookupEntries o.entries e.1).isNone)⟩

/-- Modelled from the spec: `subtract(other)` — entry removal by path set
(§4.1) of the missing `watchdog.utils.dirsnapshot` module, called
`remove_entries` by the source. -/
def Snapshot.remove_entries (s o : Snapshot) : Snapshot :=
  ⟨s.entries.filter (fun e => (lookupEntries o.entries e.1).isNone)⟩

/-- Modelled from the spec: the six-plus-two categories of a DiffResult
(§3), produced by the differ of the missing `watchdog.utils.dirsnapshot`
module. -/
structure DiffResult where
  files_created : List Path
  files_deleted : List Path
  files_modified : List Path
  files_moved : List (Path × Path)
  dirs_created : List Path
  dirs_deleted : List Path
  dirs_modified : List Path
  dirs_moved : List (Path × Path)
deriving DecidableEq, Repr

def emptyDiff : DiffResult := ⟨[], [], [], [], [], [], [], []⟩

/-- Remove the first entry carrying the given path. -/
def removeFirstPath : List (Path × Stat) → Path → List (Path × Stat)
  | [], _ => []
  | e :: es, p => if e.1 = p then es else e :: removeFirstPath es p

/-- Modelled from the spec: move detection (§4.2 step 5) of the missing
differ: among tentatively deleted and tentatively created entries of the same
kind, pair by identity key; an ambiguous key picks the lexicographically
smallest new path and leaves the rest as plain create/delete. Returns
(moves paired with the entry's metadata, remaining deleted, remaining
created). -/
def matchMoves : List (Path × Stat) → List (Path × Stat) →
    List ((Path × Path) × Stat) × List (Path × Stat) × List (Path × Stat)
  | [], created => ([], [], created)
  | d :: ds, created =>
    match created.filter (fun c => c.2.isDir == d.2.isDir && c.2.inode == d.2.inode) with
    | [] =>
      let r := matchMoves ds created
      (r.1, d :: r.2.1, r.2.2)
    | c0 :: cs =>
      let best := cs.foldl (fun b c => if pathLt c.1 b.1 then c else b) c0
      let r := matchMoves ds (removeFirstPath created best.1)
      (((d.1, best.1), d.2) :: r.1, r.2.1, r.2.2)

/-- §4.2 steps 2-3: entries of `new` whose path is absent from `old`
(`tentative old new` is the tentatively-created set; `tentative new old` the
tentatively-deleted one). -/
def tentative (old new : Snapshot) : List (Path × Stat) :=
  new.entries.filter (fun e => (old.lookup e.1).isNone)

/-- §4.2 step 4: entries present in both snapshots with the same kind whose
timestamp or size differ. -/
def modifiedEntries (old new : Snapshot) : List (Path × Stat) :=
  new.entries.filter (fun e =>
    match old.lookup e.1 with
    | some st => st.isDir == e.2.isDir && (st.mtime != e.2.mtime || st.size != e.2.size)
    | none => false)

/-- Modelled from the spec: the Snapshot Differ (§4.2) of the missing
`watchdog.utils.dirsnapshot` module (`DirectorySnapshot.__sub__` in the
source's `new_snapshot - previous_snapshot` expressions): paths only in `new`
are tentatively created, paths only in `old` tentatively deleted, same-kind
paths with differing timestamp or size are modified, move detection pairs the
tentative sets, and the results are partitioned into file and directory
buckets. -/
def diff (old new : Snapshot) : DiffResult :=
  { files_created := ((matchMoves (tentative new old) (tentative old new)).2.2.filter
      (fun e => !e.2.isDir)).map Prod.fst
    files_deleted := ((matchMoves (tentative new old) (tentative old new)).2.1.filter
      (fun e => !e.2.isDir)).map Prod.fst
    files_modified := ((modifiedEntries old new).filter (fun e => !e.2.isDir)).map Prod.fst
    files_moved := ((matchMoves (tentative new old) (tentative old new)).1.filter
      (fun m => !m.2.isDir)).map Prod.fst
    dirs_created := ((matchMoves (tentative new old) (tentative old new)).2.2.filter
      (fun e => e.2.isDir)).map Prod.fst
    dirs_deleted := ((matchMoves (tentative new old) (tentative old new)).2.1.filter
      (fun e => e.2.isDir)).map Prod.fst
    dirs_modified := ((modifiedEntries old new).filter (fun e => e.2.isDir)).map Prod.fst
    dirs_moved := ((matchMoves (tentative new old) (tentative old new)).1.filter
      (fun m => m.2.isDir)).map Prod.fst }

/-- Modelled from the spec: the typed events of `watchdog.events` (module
imported by the source but missing from the tree), one constructor per
{file, directory} × {created, deleted, modified, moved}. -/
inductive Event where
  | fileDeleted (p : Path)
  | fileModified (p : Path)
  | fileCreated (p : Path)
  | fileMoved (src dest : Path)
  | dirDeleted (p : Path)
  | dirModified (p : Path)
  | dirCreated (p : Path)
  | dirMoved (src dest : Path)
deriving DecidableEq, Repr

/-- Source lines 134-152: translate the final diff into typed events in the
source's fixed order: files deleted, modified, created, moved, then
directories deleted, modified, created, moved. -/
def diffEvents (d : DiffResult) : List Event :=
  d.files_deleted.map Event.fileDeleted ++
  d.files_modified.map Event.fileModified ++
  d.files_created.map Event.fileCreated ++
  d.files_moved.map (fun m => Event.fileMoved m.1 m.2) ++
  d.dirs_deleted.map Event.dirDeleted ++
  d.dirs_modified.map Event.dirModified ++
  d.dirs_created.map Event.dirCreated ++
  d.dirs_moved.map (fun m => Event.dirMoved m.1 m.2)

/-- The watch (`self.watch`): root path and recursiveness. -/
structure Watch where
  path : Path
  is_recursive : Bool
deriving DecidableEq, Repr

namespace FSEventsStreamFlag

/-- Source line 54. -/
def MustScanSubDirs : Nat := 0x00000001

/-- Source line 55. -/
def UserDropped : Nat := 0x00000002

/-- Source line 56. -/
def KernelDropped : Nat := 0x00000004

end FSEventsStreamFlag

/-- Source lines 115-116 and 124-125: `for p in ps:
new_snapshot.add_entries(DirectorySnapshot(p, True))`, folded left to right;
a failing scan propagates, as in the source. -/
def buildAll (fs : FS) : List Path → Snapshot → Except ScanError Snapshot
  | [], s => .ok s
  | p :: ps, s =>
    match DirectorySnapshot.build fs p true with
    | .error e => .error e
    | .ok b => buildAll fs ps (s.add_entries b)

/-- Source lines 112 and 118-123: `previous_snapshot` after both
`add_entries` repair calls — the old running snapshot's full recursive
subsets of every deleted directory and of every moved directory's old path
are merged into the extracted previous partial `prev`. -/
def enrichedPrevious (snap prev : Snapshot) (d : DiffResult) : Snapshot :=
  (prev.add_entries (snap.copy_multiple d.dirs_deleted true)).add_entries
    (snap.copy_multiple (d.dirs_moved.map Prod.fst) true)

/-- Source lines 124-128 and 131-132 continued: after the created-directory
builds produced `new1`, run the fresh recursive builds at every moved
directory's new path, re-diff once against the enriched previous partial, and
patch the running snapshot. -/
def repairMoved (fs : FS) (snap prev : Snapshot) (d : DiffResult) (new1 : Snapshot) :
    Except ScanError (List Event × Snapshot) :=
  match buildAll fs (d.dirs_moved.map Prod.snd) new1 with
  | .error e => .error e
  | .ok new2 =>
    .ok (diffEvents (diff (enrichedPrevious snap prev d) new2),
      (snap.remove_entries (enrichedPrevious snap prev d)).add_entries new2)

/-- Source lines 110-132, the structural repair taken when the first diff `d`
of `new` against `prev` reports directory creations, deletions or moves:
fresh full recursive builds of every created directory are merged into the
new partial (lines 115-116), then the moved-directory repairs and the single
re-diff run (`repairMoved`). -/
def repairAndRediff (fs : FS) (snap prev new : Snapshot) (d : DiffResult) :
    Except ScanError (List Event × Snapshot) :=
  match buildAll fs d.dirs_created new with
  | .error e => .error e
  | .ok new1 => repairMoved fs snap prev d new1

/-- Source lines 99-132 given the built partial snapshot: either diff against
the whole running snapshot and replace it (Case A, lines 99-102), or diff
against the extracted subset (lines 105-108), repair and re-diff once when
the first diff reports directory creations, deletions or moves
(lines 110-128), and patch the running snapshot (lines 131-132). -/
def processPathCore (w : Watch) (fs : FS) (snap : Snapshot) (ep : Path) (ru : Bool)
    (newSnapshot : Snapshot) : Except ScanError (List Event × Snapshot) :=
  if ru = true ∧ w.path = ep then
    .ok (diffEvents (diff snap newSnapshot), newSnapshot)
  else
    if (diff (snap.copy ep ru) newSnapshot).dirs_deleted ≠ [] ∨
        (diff (snap.copy ep ru) newSnapshot).dirs_created ≠ [] ∨
        (diff (snap.copy ep ru) newSnapshot).dirs_moved ≠ [] then
      repairAndRediff fs snap (snap.copy ep ru) newSnapshot (diff (snap.copy ep ru) newSnapshot)
    else
      .ok (diffEvents (diff (snap.copy ep ru) newSnapshot),
        (snap.remove_entries (snap.copy ep ru)).add_entries newSnapshot)

/-- Source lines 93-132, the body of the per-path loop of `queue_events`
after `recursive_update` has been computed: build the partial snapshot
(lines 94-97, a raised `ScanError` propagates uncaught) and continue with
`processPathCore`. Returns the events queued for this path and the new
running snapshot, or the propagated `ScanError`. -/
def processPathR (w : Watch) (fs : FS) (snap : Snapshot) (ep : Path) (ru : Bool) :
    Except ScanError (List Event × Snapshot) :=
  match DirectorySnapshot.build fs ep ru with
  | .error e => .error e
  | .ok newSnapshot => processPathCore w fs snap ep ru newSnapshot

/-- Source line 91: `recursive_update = bool(event_flags &
FSEventsStreamFlag.MustScanSubDirs)`, then the rest of the loop body. -/
def processPath (w : Watch) (fs : FS) (snap : Snapshot) (ep : Path) (flags : Nat) :
    Except ScanError (List Event × Snapshot) :=
  processPathR w fs snap ep ((flags &&& FSEventsStreamFlag.MustScanSubDirs) != 0)

/-- Source lines 83-152: the loop of `queue_events` over one notification
batch of (event_path, event_flags). The guard of lines 88-89 `return`s out of
the whole function, abandoning the remaining paths of the batch. An uncaught
`ScanError` aborts the loop: events queued for earlier paths and snapshot
mutations already made persist, and the error is reported as the third
component. -/
def queue_events (w : Watch) (fs : FS) :
    List (Path × Nat) → Snapshot → List Event × Snapshot × Option ScanError
  | [], snap => ([], snap, none)
  | (ep, flags) :: rest, snap =>
    if w.is_recursive = false ∧ w.path ≠ ep then ([], snap, none)
    else
      match processPath w fs snap ep flags with
      | .error e => ([], snap, some e)
      | .ok (evs, snap') =>
        let r := queue_events w fs rest snap'
        (evs ++ r.1, r.2)

/-- The externally observable calls made by `run` (source lines 155-194) and
`on_thread_exit` (lines 79-81). -/
inductive RunStep where
  | addWatch
  | readEvents
  | removeWatch
  | stopStream
deriving DecidableEq, Repr

/-- An exception value, as caught by `except Exception` in `run`. -/
abbrev RunErr := Nat

/-- Source lines 79-81: `on_thread_exit` removes the native watch and stops
the stream. -/
def on_thread_exit : List RunStep := [RunStep.removeWatch, RunStep.stopStream]

/-- Source lines 185-190, the body of `run`'s `try`: register the watch with
the native subsystem, then read events until the stream ends; either call may
raise. Returns the calls made and the outcome. -/
def runBody (addWatchResult readEventsResult : Except RunErr Unit) :
    List RunStep × Except RunErr Unit :=
  match addWatchResult with
  | .error e => ([RunStep.addWatch], .error e)
  | .ok _ =>
    match readEventsResult with
    | .error e => ([RunStep.addWatch, RunStep.readEvents], .error e)
    | .ok _ => ([RunStep.addWatch, RunStep.readEvents], .ok ())

/-- Source lines 191-194: `except Exception: pass` swallows the body's
exception, and the `finally` clause always runs the teardown calls; the
second component is the exception propagating out, if any. -/
def tryExceptFinally (body : List RunStep × Except RunErr Unit)
    (fin : List RunStep) : List RunStep × Option RunErr :=
  match body.2 with
  | .ok _ => (body.1 ++ fin, none)
  | .error _ => (body.1 ++ fin, none)

/-- Source lines 155-194: `run`, as the calls it makes and the exception it
lets escape, given the outcomes of the two fallible native calls. -/
def run (addWatchResult readEventsResult : Except RunErr Unit) :
    List RunStep × Option RunErr :=
  tryExceptFinally (runBody addWatchResult readEventsResult) on_thread_exit

/-- No file-deletion event occurs in the list. -/
def noFileDeleted (evs : List Event) : Bool :=
  evs.all (fun e => match e with | Event.fileDeleted _ => false | _ => true)

/-- The order contract on an event list: no file-deletion event occurs after
a file-creation event, i.e. every file-deletion comes strictly before every
file-creation. -/
def fileDelsBeforeCreates : List Event → Bool
  | [] => true
  | Event.fileCreated _ :: rest => noFileDeleted rest && fileDelsBeforeCreates rest
  | _ :: rest => fileDelsBeforeCreates rest

/-! Concrete instances used by witnesses and counterexamples. -/

/-- A recursive watch on `/w`. -/
def w4 : Watch := ⟨["w"], true⟩

/-- A non-recursive watch on `/w`. -/
def w5 : Watch := ⟨["w"], false⟩

/-- Live filesystem: `/w` holds `d1` (with a new file) and `d2` (whose file
is gone). -/
def fs4 : FS := [(["w"], ⟨true, 1, 0, 0⟩), (["w", "d1"], ⟨true, 2, 0, 0⟩),
  (["w", "d1", "newfile.txt"], ⟨false, 3, 0, 7⟩), (["w", "d2"], ⟨true, 4, 0, 0⟩)]

/-- Running snapshot matching `fs4` before the changes: no
`d1/newfile.txt` yet, `d2/gone.txt` still present. -/
def snap4 : Snapshot := ⟨[(["w"], ⟨true, 1, 0, 0⟩), (["w", "d1"], ⟨true, 2, 0, 0⟩),
  (["w", "d2"], ⟨true, 4, 0, 0⟩), (["w", "d2", "gone.txt"], ⟨false, 5, 0, 9⟩)]⟩

/-- Live filesystem for the non-recursive watch: a new file appeared directly
under `/w`. -/
def fs5 : FS := [(["w"], ⟨true, 1, 0, 0⟩), (["w", "new.txt"], ⟨false, 2, 0, 5⟩)]

/-- Running snapshot of the non-recursive watch: only the root. -/
def snap5 : Snapshot := ⟨[(["w"], ⟨true, 1, 0, 0⟩)]⟩

/-- Live filesystem where the subtree `/w/s/d` has been deleted wholesale. -/
def fs1 : FS := [(["w"], ⟨true, 1, 0, 0⟩), (["w", "s"], ⟨true, 2, 0, 0⟩)]

/-- Running snapshot still holding `/w/s/d` and its file. -/
def snap1 : Snapshot := ⟨[(["w"], ⟨true, 1, 0, 0⟩), (["w", "s"], ⟨true, 2, 0, 0⟩),
  (["w", "s", "d"], ⟨true, 3, 0, 0⟩), (["w", "s", "d", "f.txt"], ⟨false, 4, 0, 2⟩)]⟩

/-- The partial snapshot `DirectorySnapshot.build fs1 ["w", "s"] true`
produces. -/
def ns1 : Snapshot := ⟨[(["w", "s"], ⟨true, 2, 0, 0⟩)]⟩

/-- The full recursive snapshot `DirectorySnapshot.build fs4 ["w"] true`
produces. -/
def ns4 : Snapshot := ⟨fs4⟩

/-! Shared lemmas about lookups, the differ and the per-path pipeline. -/

theorem lookupEntries_isSome_of_mem {l : List (Path × Stat)} {e : Path × Stat}
    (h : e ∈ l) : (lookupEntries l e.1).isSome = true := by
  induction l with
  | nil => cases h
  | cons f fs ih =>
    simp only [lookupEntries]
    by_cases hf : f.1 = e.1
    · rw [if_pos hf]; rfl
    · rw [if_neg hf]
      cases h with
      | head => exact absurd rfl hf
      | tail _ hm => exact ih hm

theorem lookupEntries_eq_of_distinct {l : List (Path × Stat)}
    (hd : pathsDistinct l = true) {e : Path × Stat} (h : e ∈ l) :
    lookupEntries l e.1 = some e.2 := by
  induction l with
  | nil => cases h
  | cons f fs ih =>
    simp only [pathsDistinct, Bool.and_eq_true] at hd
    cases h with
    | head => simp [lookupEntries]
    | tail _ hm =>
      have hne : ¬ e.1 = f.1 := of_decide_eq_true (List.all_eq_true.mp hd.1 e hm)
      simp only [lookupEntries]
      rw [if_neg (fun hh => hne hh.symm)]
      exact ih hd.2 hm

theorem tentative_self_nil (s : Snapshot) : tentative s s = [] := by
  rw [tentative, List.filter_eq_nil_iff]
  intro e he
  have hs := lookupEntries_isSome_of_mem he
  simp only [Snapshot.lookup]
  intro hn
  rw [Option.isNone_iff_eq_none.mp hn] at hs
  cases hs

theorem modifiedEntries_self_nil (s : Snapshot) (h : s.wf) : modifiedEntries s s = [] := by
  rw [modifiedEntries, List.filter_eq_nil_iff]
  intro e he
  have hl : s.lookup e.1 = some e.2 := lookupEntries_eq_of_distinct h he
  simp [hl]

theorem lookupEntries_append (l₁ l₂ : List (Path × Stat)) (p : Path) :
    lookupEntries (l₁ ++ l₂) p =
      match lookupEntries l₁ p with
      | some v => some v
      | none => lookupEntries l₂ p := by
  induction l₁ with
  | nil => rfl
  | cons e es ih =>
    by_cases hp : e.1 = p
    · simp [lookupEntries, hp]
    · simp only [List.cons_append, lookupEntries, if_neg hp]
      exact ih

theorem lookupEntries_filter_of_base {g : Path × Stat → Bool} {q : Path}
    (hg : ∀ st, g (q, st) = true) :
    ∀ l : List (Path × Stat), lookupEntries (l.filter g) q = lookupEntries l q := by
  intro l
  induction l with
  | nil => rfl
  | cons e es ih =>
    by_cases hq : e.1 = q
    · have hge : g e = true := by
        have he : e = (q, e.2) := by
          cases e with
          | mk a b => simp only at hq; rw [hq]
        rw [he]; exact hg e.2
      rw [List.filter_cons_of_pos hge]
      simp only [lookupEntries, if_pos hq]
    · cases hge : g e with
      | true =>
        rw [List.filter_cons_of_pos hge]
        simp only [lookupEntries, if_neg hq]
        exact ih
      | false =>
        rw [List.filter_cons_of_neg (by simp [hge])]
        simp only [lookupEntries, if_neg hq]
        exact ih

theorem lookup_remove_add (s prev new : Snapshot) (q : Path)
    (hp : prev.lookup q = none) (hn : new.lookup q = none) :
    ((s.remove_entries prev).add_entries new).lookup q = s.lookup q := by
  simp only [Snapshot.lookup, Snapshot.add_entries, Snapshot.remove_entries] at *
  rw [lookupEntries_append, hn]
  rw [lookupEntries_filter_of_base (fun st => by simp only [hn]; rfl)]
  rw [lookupEntries_filter_of_base (fun st => by simp only [hp]; rfl)]

theorem processPathR_ok (w : Watch) (fs : FS) (snap : Snapshot) (ep : Path) (ru : Bool)
    (ns : Snapshot) (h : DirectorySnapshot.build fs ep ru = .ok ns) :
    processPathR w fs snap ep ru = processPathCore w fs snap ep ru ns := by
  unfold processPathR; rw [h]

theorem processPathR_err (w : Watch) (fs : FS) (snap : Snapshot) (ep : Path) (ru : Bool)
    (e : ScanError) (h : DirectorySnapshot.build fs ep ru = .error e) :
    processPathR w fs snap ep ru = .error e := by
  unfold processPathR; rw [h]

theorem repairAndRediff_ok1 (fs : FS) (snap prev new : Snapshot) (d : DiffResult)
    (n1 : Snapshot) (h : buildAll fs d.dirs_created new = .ok n1) :
    repairAndRediff fs snap prev new d = repairMoved fs snap prev d n1 := by
  unfold repairAndRediff; rw [h]

theorem repairAndRediff_err1 (fs : FS) (snap prev new : Snapshot) (d : DiffResult)
    (e : ScanError) (h : buildAll fs d.dirs_created new = .error e) :
    repairAndRediff fs snap prev new d = .error e := by
  unfold repairAndRediff; rw [h]

theorem repairMoved_ok (fs : FS) (snap prev : Snapshot) (d : DiffResult)
    (n1 n2 : Snapshot) (h : buildAll fs (d.dirs_moved.map Prod.snd) n1 = .ok n2) :
    repairMoved fs snap prev d n1 =
      .ok (diffEvents (diff (enrichedPrevious snap prev d) n2),
        (snap.remove_entries (enrichedPrevious snap prev d)).add_entries n2) := by
  unfold repairMoved; rw [h]

theorem repairMoved_err (fs : FS) (snap prev : Snapshot) (d : DiffResult)
    (n1 : Snapshot) (e : ScanError) (h : buildAll fs (d.dirs_moved.map Prod.snd) n1 = .error e) :
    repairMoved fs snap prev d n1 = .error e := by
  unfold repairMoved; rw [h]

theorem land_one_testBit (n : Nat) :
    ((n &&& FSEventsStreamFlag.MustScanSubDirs) != 0) = Nat.testBit n 0 := by
  have h : n &&& FSEventsStreamFlag.MustScanSubDirs = n % 2 := Nat.and_one_is_mod n
  rw [h, Nat.testBit_zero]
  rcases Nat.mod_two_eq_zero_or_one n with h2 | h2 <;> rw [h2] <;> rfl

theorem noFileDeleted_cons_true {e : Event} {es : List Event}
    (h : noFileDeleted (e :: es) = true) : noFileDeleted es = true := by
  simp only [noFileDeleted, List.all_cons, Bool.and_eq_true] at h
  exact h.2

theorem fdbc_of_noFileDeleted {l : List Event} (h : noFileDeleted l = true) :
    fileDelsBeforeCreates l = true := by
  induction l with
  | nil => rfl
  | cons e es ih =>
    have h' := noFileDeleted_cons_true h
    cases e <;> simp [fileDelsBeforeCreates, h', ih h']

theorem fdbc_map_deleted_append (xs : List Path) (l : List Event) :
    fileDelsBeforeCreates (xs.map Event.fileDeleted ++ l) = fileDelsBeforeCreates l := by
  induction xs with
  | nil => rfl
  | cons x xs ih => simpa [fileDelsBeforeCreates] using ih

theorem fdbc_diffEvents (d : DiffResult) : fileDelsBeforeCreates (diffEvents d) = true := by
  unfold diffEvents
  simp only [List.append_assoc]
  rw [fdbc_map_deleted_append]
  apply fdbc_of_noFileDeleted
  simp only [noFileDeleted, List.all_append, Bool.and_eq_true, List.all_eq_true]
  refine ⟨?_, ?_, ?_, ?_, ?_, ?_, ?_⟩ <;> intro x hx <;>
    obtain ⟨a, ha, rfl⟩ := List.mem_map.mp hx <;> rfl

/-! The claims. -/

/-- C7: diffing a snapshot (satisfying the §3 unique-path invariant) against
itself yields the empty DiffResult: files and directories created, deleted,
modified and moved are all empty. -/
theorem diff_self_empty (s : Snapshot) (h : s.wf) : diff s s = emptyDiff := by
  unfold diff
  rw [tentative_self_nil, modifiedEntries_self_nil s h]
  rfl

/-- Witness for C7 at a concrete snapshot. -/
theorem diff_self_empty_witness : Snapshot.wf snap4 ∧ diff snap4 snap4 = emptyDiff :=
  ⟨by decide, diff_self_empty snap4 (by decide)⟩

/-- C8: `recursive_update` is set exactly when the MustScanSubDirs bit
(0x00000001) of the event's flags is set, and the partial snapshot for the
event path is built with exactly that recursiveness (observable through the
propagation of the build's outcome). -/
theorem recursive_update_flag_spec (w : Watch) (fs : FS) (snap : Snapshot) (ep : Path)
    (flags : Nat) :
    ((flags &&& FSEventsStreamFlag.MustScanSubDirs) != 0) = Nat.testBit flags 0 ∧
    processPath w fs snap ep flags = processPathR w fs snap ep (Nat.testBit flags 0) ∧
    ∀ er : ScanError, DirectorySnapshot.build fs ep (Nat.testBit flags 0) = .error er →
      processPath w fs snap ep flags = .error er := by
  refine ⟨land_one_testBit flags, ?_, ?_⟩
  · unfold processPath; rw [land_one_testBit]
  · intro er her
    unfold processPath
    rw [land_one_testBit]
    exact processPathR_err w fs snap ep _ er her

/-- Witness for C8: a build with the bit-derived recursiveness fails on a
missing root and the failure is the per-path outcome. -/
theorem recursive_update_flag_spec_witness :
    processPath w4 [] snap4 ["w"] 1 = .error ⟨["w"]⟩ :=
  (recursive_update_flag_spec w4 [] snap4 ["w"] 1).2.2 ⟨["w"]⟩ rfl

/-- C10: whenever `run` exits — event reading returning normally, or an
exception raised during watch registration or event reading — the teardown
calls of `on_thread_exit` (remove the native watch, stop the stream) each
happen exactly once, and no exception propagates out of `run`. -/
theorem run_teardown_once (ar rr : Except RunErr Unit) :
    (run ar rr).1.count RunStep.removeWatch = 1 ∧
    (run ar rr).1.count RunStep.stopStream = 1 ∧
    (run ar rr).2 = none := by
  cases ar <;> cases rr <;> exact ⟨rfl, rfl, rfl⟩

/-- C5 (amended): on a non-recursive watch, an event path different from the
watch root aborts the processing of the whole batch: that path and every
later path of the batch contribute zero events and no snapshot change. -/
theorem nonrecursive_skip_aborts_batch (w : Watch) (fs : FS) (ep : Path) (flags : Nat)
    (rest : List (Path × Nat)) (snap : Snapshot)
    (hw : w.is_recursive = false) (hne : w.path ≠ ep) :
    queue_events w fs ((ep, flags) :: rest) snap = ([], snap, none) := by
  simp only [queue_events]
  rw [if_pos ⟨hw, hne⟩]

/-- Witness for C5: the spec's scenario — a non-recursive watch on `/w`
receiving a notification for `/w/sub/c.txt` emits zero events. -/
theorem nonrecursive_skip_aborts_batch_witness :
    queue_events w5 fs5 [(["w", "sub", "c.txt"], 0), (["w"], 0)] snap5 = ([], snap5, none) :=
  nonrecursive_skip_aborts_batch w5 fs5 ["w", "sub", "c.txt"] 0 [(["w"], 0)] snap5 rfl
    (by decide)

/-- C5 counterexample: the claim says remaining event paths of the batch are
still processed after a skipped one, which would make the batch result equal
the result of the batch without the skipped path. The code `return`s out of
`queue_events` instead, so the second path's file creation is lost. -/
theorem nonrecursive_batch_counterexample :
    queue_events w5 fs5 [(["w", "sub", "c.txt"], 0), (["w"], 0)] snap5 = ([], snap5, none) ∧
    (queue_events w5 fs5 [(["w"], 0)] snap5).1 = [Event.fileCreated ["w", "new.txt"]] ∧
    queue_events w5 fs5 [(["w", "sub", "c.txt"], 0), (["w"], 0)] snap5 ≠
      queue_events w5 fs5 [(["w"], 0)] snap5 :=
  ⟨rfl, rfl, by decide⟩

/-- C6, the code's behavior at the failing input: the build of a vanished
event path yields a `ScanError`; `queue_events` then produces no events, no
snapshot change and surfaces the error instead of substituting an empty
snapshot, and the remainder of the batch (here the root path, bit set) is
never processed; at the `run` level a failing event-reading call ends the
watch (teardown runs) with the exception silently swallowed. -/
theorem scan_error_terminates_batch :
    DirectorySnapshot.build fs4 ["w", "gone"] true = .error ⟨["w", "gone"]⟩ ∧
    queue_events w4 fs4 [(["w", "gone"], 1), (["w"], 1)] snap4 =
      ([], snap4, some ⟨["w", "gone"]⟩) ∧
    run (.ok ()) (.error 7) =
      ([RunStep.addWatch, RunStep.readEvents, RunStep.removeWatch, RunStep.stopStream], none) :=
  ⟨rfl, rfl, rfl⟩

/-- C2: when the MustScanSubDirs bit is set and the event path equals the
watch root (Case A), the emitted events are exactly the diff of the freshly
built recursive snapshot against the entire running snapshot, and the
running snapshot is replaced in full by that fresh snapshot for the rest of
the batch — no scoped extraction, repair or patching. -/
theorem full_tree_replace_spec (w : Watch) (fs : FS) (snap : Snapshot) (ep : Path)
    (flags : Nat) (rest : List (Path × Nat))
    (hru : Nat.testBit flags 0 = true) (hep : w.path = ep)
    (ns : Snapshot) (hbuild : DirectorySnapshot.build fs ep true = .ok ns) :
    queue_events w fs ((ep, flags) :: rest) snap =
      (diffEvents (diff snap ns) ++ (queue_events w fs rest ns).1,
        (queue_events w fs rest ns).2) := by
  have hpp : processPath w fs snap ep flags = .ok (diffEvents (diff snap ns), ns) := by
    unfold processPath
    rw [land_one_testBit, hru]
    rw [processPathR_ok w fs snap ep true ns hbuild]
    unfold processPathCore
    rw [if_pos ⟨rfl, hep⟩]
  simp only [queue_events]
  rw [if_neg (fun hc => hc.2 hep), hpp]

/-- Witness for C2 at a concrete batch. -/
theorem full_tree_replace_spec_witness :
    queue_events w4 fs4 [(["w"], 1)] snap4 =
      ([Event.fileDeleted ["w", "d2", "gone.txt"], Event.fileCreated ["w", "d1", "newfile.txt"]],
        ns4, none) :=
  full_tree_replace_spec w4 fs4 snap4 ["w"] 1 [] (by decide) rfl ns4 rfl

/-- C1: in the scoped case (Case B), when the first diff of the new partial
against the extracted previous partial reports any directory created,
deleted or moved, the previous partial is enriched with the old running
snapshot's full recursive subsets of every deleted directory and of every
moved directory's old path, the new partial is enriched with fresh full
recursive builds of every created directory and of every moved directory's
new path, and the diff is re-run exactly once — that second diff gives the
emitted events. When the first diff reports no directory created, deleted or
moved, no repair happens and the first diff is final. -/
theorem structural_rediff_spec (w : Watch) (fs : FS) (snap : Snapshot) (ep : Path)
    (ru : Bool) (hB : ¬(ru = true ∧ w.path = ep)) (ns0 : Snapshot)
    (hbuild : DirectorySnapshot.build fs ep ru = .ok ns0) :
    (∀ nf1 nf : Snapshot,
      (diff (snap.copy ep ru) ns0).dirs_deleted ≠ [] ∨
        (diff (snap.copy ep ru) ns0).dirs_created ≠ [] ∨
        (diff (snap.copy ep ru) ns0).dirs_moved ≠ [] →
      buildAll fs (diff (snap.copy ep ru) ns0).dirs_created ns0 = .ok nf1 →
      buildAll fs ((diff (snap.copy ep ru) ns0).dirs_moved.map Prod.snd) nf1 = .ok nf →
      processPathR w fs snap ep ru = .ok
        (diffEvents
          (diff (enrichedPrevious snap (snap.copy ep ru) (diff (snap.copy ep ru) ns0)) nf),
          (snap.remove_entries
            (enrichedPrevious snap (snap.copy ep ru) (diff (snap.copy ep ru) ns0))).add_entries
            nf)) ∧
    ((diff (snap.copy ep ru) ns0).dirs_deleted = [] ∧
        (diff (snap.copy ep ru) ns0).dirs_created = [] ∧
        (diff (snap.copy ep ru) ns0).dirs_moved = [] →
      processPathR w fs snap ep ru = .ok
        (diffEvents (diff (snap.copy ep ru) ns0),
          (snap.remove_entries (snap.copy ep ru)).add_entries ns0)) := by
  constructor
  · intro nf1 nf hstruct h1 h2
    rw [processPathR_ok w fs snap ep ru ns0 hbuild]
    unfold processPathCore
    rw [if_neg hB, if_pos hstruct]
    rw [repairAndRediff_ok1 fs snap (snap.copy ep ru) ns0 _ nf1 h1]
    rw [repairMoved_ok fs snap (snap.copy ep ru) _ nf1 nf h2]
  · rintro ⟨hd, hc, hm⟩
    rw [processPathR_ok w fs snap ep ru ns0 hbuild]
    unfold processPathCore
    rw [if_neg hB, if_neg (by rw [hd, hc, hm]; simp)]

/-- Witness for C1: a deleted subdirectory with a file in it triggers the
structural re-diff, and the second diff reports the file deletion too. -/
theorem structural_rediff_spec_witness :
    processPathR w4 fs1 snap1 ["w", "s"] true =
      .ok ([Event.fileDeleted ["w", "s", "d", "f.txt"], Event.dirDeleted ["w", "s", "d"]],
        ⟨[(["w", "s"], ⟨true, 2, 0, 0⟩), (["w"], ⟨true, 1, 0, 0⟩)]⟩) :=
  (structural_rediff_spec w4 fs1 snap1 ["w", "s"] true (by decide) ns1 rfl).1
    ns1 ns1 (by decide) rfl rfl

/-- C3: in the scoped case the running snapshot is updated by removing
exactly the entries covered by the (possibly repair-enriched) previous
partial and then adding exactly the entries of the (possibly enriched) new
partial; any path covered by neither partial keeps its entry unchanged. -/
theorem snapshot_update_frame_spec (w : Watch) (fs : FS) (snap : Snapshot) (ep : Path)
    (ru : Bool) (hB : ¬(ru = true ∧ w.path = ep)) (ns0 : Snapshot)
    (hbuild : DirectorySnapshot.build fs ep ru = .ok ns0) :
    (∀ nf1 nf : Snapshot,
      (diff (snap.copy ep ru) ns0).dirs_deleted ≠ [] ∨
        (diff (snap.copy ep ru) ns0).dirs_created ≠ [] ∨
        (diff (snap.copy ep ru) ns0).dirs_moved ≠ [] →
      buildAll fs (diff (snap.copy ep ru) ns0).dirs_created ns0 = .ok nf1 →
      buildAll fs ((diff (snap.copy ep ru) ns0).dirs_moved.map Prod.snd) nf1 = .ok nf →
      processPathR w fs snap ep ru = .ok
        (diffEvents
          (diff (enrichedPrevious snap (snap.copy ep ru) (diff (snap.copy ep ru) ns0)) nf),
          (snap.remove_entries
            (enrichedPrevious snap (snap.copy ep ru) (diff (snap.copy ep ru) ns0))).add_entries
            nf) ∧
      ∀ q : Path,
        (enrichedPrevious snap (snap.copy ep ru) (diff (snap.copy ep ru) ns0)).lookup q = none →
        nf.lookup q = none →
        ((snap.remove_entries
            (enrichedPrevious snap (snap.copy ep ru) (diff (snap.copy ep ru) ns0))).add_entries
            nf).lookup q = snap.lookup q) ∧
    ((diff (snap.copy ep ru) ns0).dirs_deleted = [] ∧
        (diff (snap.copy ep ru) ns0).dirs_created = [] ∧
        (diff (snap.copy ep ru) ns0).dirs_moved = [] →
      processPathR w fs snap ep ru = .ok
        (diffEvents (diff (snap.copy ep ru) ns0),
          (snap.remove_entries (snap.copy ep ru)).add_entries ns0) ∧
      ∀ q : Path, (snap.copy ep ru).lookup q = none → ns0.lookup q = none →
        ((snap.remove_entries (snap.copy ep ru)).add_entries ns0).lookup q = snap.lookup q) := by
  constructor
  · intro nf1 nf hstruct h1 h2
    refine ⟨?_, ?_⟩
    · rw [processPathR_ok w fs snap ep ru ns0 hbuild]
      unfold processPathCore
      rw [if_neg hB, if_pos hstruct]
      rw [repairAndRediff_ok1 fs snap (snap.copy ep ru) ns0 _ nf1 h1]
      rw [repairMoved_ok fs snap (snap.copy ep ru) _ nf1 nf h2]
    · intro q hq1 hq2
      exact lookup_remove_add snap _ nf q hq1 hq2
  · rintro ⟨hd, hc, hm⟩
    refine ⟨?_, ?_⟩
    · rw [processPathR_ok w fs snap ep ru ns0 hbuild]
      unfold processPathCore
      rw [if_neg hB, if_neg (by rw [hd, hc, hm]; simp)]
    · intro q hq1 hq2
      exact lookup_remove_add snap _ ns0 q hq1 hq2

/-- Witness for C3: the update of the running snapshot in the structural
case, and the untouched entry at the root path `/w`. -/
theorem snapshot_update_frame_spec_witness :
    processPathR w4 fs1 snap1 ["w", "s"] true =
      .ok ([Event.fileDeleted ["w", "s", "d", "f.txt"], Event.dirDeleted ["w", "s", "d"]],
        ⟨[(["w", "s"], ⟨true, 2, 0, 0⟩), (["w"], ⟨true, 1, 0, 0⟩)]⟩) ∧
    (⟨[(["w", "s"], ⟨true, 2, 0, 0⟩), (["w"], ⟨true, 1, 0, 0⟩)]⟩ : Snapshot).lookup ["w"] =
      snap1.lookup ["w"] := by
  have h := (snapshot_update_frame_spec w4 fs1 snap1 ["w", "s"] true (by decide) ns1 rfl).1
    ns1 ns1 (by decide) rfl rfl
  exact ⟨h.1, h.2 ["w"] rfl rfl⟩

/-- C4 (amended): for each processed event path the emitted events are the
categories of its final diff appended in the source's fixed order — files
deleted, modified, created, moved, then directories deleted, modified,
created, moved — so within the events of a single event path every file
deletion precedes every file creation. (The batch-wide ordering claimed
across distinct event paths does not hold; see the counterexample.) -/
theorem perpath_event_order_spec (w : Watch) (fs : FS) (snap : Snapshot) (ep : Path)
    (flags : Nat) (evs : List Event) (s' : Snapshot)
    (h : processPath w fs snap ep flags = .ok (evs, s')) :
    (∃ d : DiffResult, evs = diffEvents d) ∧ fileDelsBeforeCreates evs = true := by
  have key : ∀ d : DiffResult, diffEvents d = evs →
      (∃ d : DiffResult, evs = diffEvents d) ∧ fileDelsBeforeCreates evs = true := by
    intro d hd
    exact ⟨⟨d, hd.symm⟩, hd ▸ fdbc_diffEvents d⟩
  unfold processPath at h
  set ru := ((flags &&& FSEventsStreamFlag.MustScanSubDirs) != 0) with hruDef
  cases hb : DirectorySnapshot.build fs ep ru with
  | error e =>
    rw [processPathR_err w fs snap ep ru e hb] at h
    exact Except.noConfusion h
  | ok ns =>
    rw [processPathR_ok w fs snap ep ru ns hb] at h
    unfold processPathCore at h
    by_cases hA : ru = true ∧ w.path = ep
    · rw [if_pos hA] at h
      simp only [Except.ok.injEq, Prod.mk.injEq] at h
      exact key _ h.1
    · rw [if_neg hA] at h
      by_cases hS : (diff (snap.copy ep ru) ns).dirs_deleted ≠ [] ∨
          (diff (snap.copy ep ru) ns).dirs_created ≠ [] ∨
          (diff (snap.copy ep ru) ns).dirs_moved ≠ []
      · rw [if_pos hS] at h
        cases hb1 : buildAll fs (diff (snap.copy ep ru) ns).dirs_created ns with
        | error e =>
          rw [repairAndRediff_err1 fs snap (snap.copy ep ru) ns _ e hb1] at h
          exact Except.noConfusion h
        | ok n1 =>
          rw [repairAndRediff_ok1 fs snap (snap.copy ep ru) ns _ n1 hb1] at h
          cases hb2 : buildAll fs ((diff (snap.copy ep ru) ns).dirs_moved.map Prod.snd) n1 with
          | error e =>
            rw [repairMoved_err fs snap (snap.copy ep ru) _ n1 e hb2] at h
            exact Except.noConfusion h
          | ok n2 =>
            rw [repairMoved_ok fs snap (snap.copy ep ru) _ n1 n2 hb2] at h
            simp only [Except.ok.injEq, Prod.mk.injEq] at h
            exact key _ h.1
      · rw [if_neg hS] at h
        simp only [Except.ok.injEq, Prod.mk.injEq] at h
        exact key _ h.1

/-- Witness for C4 at a concrete per-path outcome. -/
theorem perpath_event_order_spec_witness :
    (∃ d : DiffResult,
      [Event.fileDeleted ["w", "d2", "gone.txt"], Event.fileCreated ["w", "d1", "newfile.txt"]] =
        diffEvents d) ∧
    fileDelsBeforeCreates
      [Event.fileDeleted ["w", "d2", "gone.txt"],
        Event.fileCreated ["w", "d1", "newfile.txt"]] = true :=
  perpath_event_order_spec w4 fs4 snap4 ["w"] 1
    [Event.fileDeleted ["w", "d2", "gone.txt"], Event.fileCreated ["w", "d1", "newfile.txt"]]
    ns4 rfl

/-- C4 counterexample: a batch of two event paths whose first path produces
a file creation and whose second produces a file deletion; the emitted
sequence lists the creation before the deletion, so the claimed batch-wide
deletions-before-creations ordering fails although the batch produced one
file deletion and one file creation. -/
theorem batch_order_counterexample :
    (queue_events w4 fs4 [(["w", "d1"], 1), (["w", "d2"], 1)] snap4).1 =
      [Event.fileCreated ["w", "d1", "newfile.txt"], Event.fileDeleted ["w", "d2", "gone.txt"]] ∧
    fileDelsBeforeCreates
      (queue_events w4 fs4 [(["w", "d1"], 1), (["w", "d2"], 1)] snap4).1 = false :=
  ⟨rfl, rfl⟩

end Watchdog
